import Mathlib

/-!
Shallow embedding of `pkg/util/types/pvc.go`: the storage-provisioning
metadata resolution layer for KubeVirt volumes.  Persistent volume claims,
storage classes, the indexed object cache and the resolution functions are
translated directly from the Go source; the theorems at the end of the file
check the specification's claims against these definitions.

Modelling conventions:
- Go strings are Lean `String`; `nil`-able pointers and optional fields are
  `Option`; a Go multi-value return `(a, b, err)` is a product whose last
  component is `Option String` (the error, `none` for `nil`).
- A cache object (`interface{}`) is a `StoreObj`: one of the two schemas the
  file downcasts to, or `other` (any foreign type, carrying the name `%T`
  would print).  A `cache.Store` is a lookup function plus a listing.
- A Go `map[string]string` (annotations) is an association list; indexing
  with the zero-value default is `annLookup`.  The `map[string]*PVC` built
  by `VirtVolumesToPVCMap` uses `mapInsert`/`mapLookup` with Go map
  assignment semantics (replace the binding if the key is present).
-/

namespace KubeVirtPVC

/-- Enumerator `k8sv1.PersistentVolumeBlock`, the string "Block". -/
def PersistentVolumeBlock : String := "Block"

/-- Enumerator `storagev1.VolumeBindingWaitForFirstConsumer`. -/
def VolumeBindingWaitForFirstConsumer : String := "WaitForFirstConsumer"

/-- Enumerator `k8sv1.ReadWriteMany`, the string "ReadWriteMany". -/
def ReadWriteMany : String := "ReadWriteMany"

/-- The well-known default storage class annotation key. -/
def defaultClassAnnKey : String := "storageclass.kubernetes.io/is-default-class"

/-- The fields of `k8sv1.PersistentVolumeClaimSpec` this file consumes. -/
structure PVCSpec where
  volumeMode : Option String
  storageClassName : Option String
  accessModes : List String
  deriving DecidableEq

/-- A `k8sv1.PersistentVolumeClaim` (metadata name, annotations, spec). -/
structure PVC where
  name : String
  annotations : List (String × String)
  spec : PVCSpec
  deriving DecidableEq

/-- A `storagev1.StorageClass` (name, annotations, volume binding mode). -/
structure StorageClass where
  name : String
  annotations : List (String × String)
  volumeBindingMode : Option String
  deriving DecidableEq

/-- A typed object held by the cache: one of the two schemas this file
expects, or anything else (`other`, carrying the name `%T` would print). -/
inductive StoreObj where
  | pvc (p : PVC)
  | storageClass (sc : StorageClass)
  | other (typeName : String)
  deriving DecidableEq

/-- The triple Go's `cache.Store.GetByKey` returns: `(obj, exists, err)`. -/
structure GetResult where
  obj : Option StoreObj
  exists_ : Bool
  err : Option String
  deriving DecidableEq

/-- Read-only view of `cache.Store`: keyed lookup plus listing. -/
structure Store where
  getByKey : String → GetResult
  list : List StoreObj

/-- The Go type name `%T` prints for a cache object (`<nil>` for a nil
interface); also stands in for the `%v` rendering, whose exact text no
theorem depends on. -/
def typeNameOf : Option StoreObj → String
  | none => "<nil>"
  | some (StoreObj.pvc _) => "*v1.PersistentVolumeClaim"
  | some (StoreObj.storageClass _) => "*v1.StorageClass"
  | some (StoreObj.other t) => t

/-- Function `isPVCBlock`: `pvc.Spec.VolumeMode != nil && *pvc.Spec.VolumeMode
== k8sv1.PersistentVolumeBlock`. -/
def isPVCBlock (pvc : PVC) : Bool :=
  match pvc.spec.volumeMode with
  | some m => m == PersistentVolumeBlock
  | none => false

/-- Function `IsPVCBlockFromStore(store, namespace, claimName)`, returning the
Go quadruple `(pvc, exists, isBlockDevice, err)`. -/
def IsPVCBlockFromStore (store : Store) (ns : String) (claimName : String) :
    Option PVC × Bool × Bool × Option String :=
  let r := store.getByKey (ns ++ "/" ++ claimName)
  if r.err.isSome || !r.exists_ then
    (none, r.exists_, false, r.err)
  else
    match r.obj with
    | some (StoreObj.pvc p) => (some p, true, isPVCBlock p, none)
    | o => (none, false, false, some ("this is not a PVC! " ++ typeNameOf o))

/-- Function `HasSharedAccessMode`: some access mode equals `ReadWriteMany`. -/
def HasSharedAccessMode (accessModes : List String) : Bool :=
  accessModes.any (fun accessMode => accessMode == ReadWriteMany)

/-- Whether `pat` occurs as a contiguous sublist of the second argument
(`strings.Contains`, at the level of characters). -/
def listContains (pat : List Char) : List Char → Bool
  | [] => pat.isEmpty
  | c :: rest => pat.isPrefixOf (c :: rest) || listContains pat rest

/-- Go `strings.Contains(s, pat)`. -/
def strContains (s pat : String) : Bool :=
  listContains pat.toList s.toList

/-- Function `IsPreallocated(annotations)`: some annotation key contains
`/storage.preallocation` or `/storage.thick-provisioned` with value
exactly `"true"`. -/
def IsPreallocated (annotations : List (String × String)) : Bool :=
  annotations.any fun kv =>
    (strContains kv.1 "/storage.preallocation" && kv.2 == "true") ||
    (strContains kv.1 "/storage.thick-provisioned" && kv.2 == "true")

/-- A `virtv1.Volume`: its name plus the `DataVolume` and
`PersistentVolumeClaim` variants, each carrying the referenced name when
set (the other fields of the tagged union are not consumed here). -/
structure Volume where
  name : String
  dataVolume : Option String
  persistentVolumeClaim : Option String
  deriving DecidableEq

/-- Function `PVCNameFromVirtVolume`: the DataVolume name first, else the
claim name, else the empty string. -/
def PVCNameFromVirtVolume (volume : Volume) : String :=
  match volume.dataVolume with
  | some dvName => dvName
  | none =>
    match volume.persistentVolumeClaim with
    | some claimName => claimName
    | none => ""

/-- Go map assignment `m[k] = v`: replace the binding when the key is
present, otherwise add it. -/
def mapInsert (m : List (String × Option PVC)) (k : String) (v : Option PVC) :
    List (String × Option PVC) :=
  if m.any (fun kv => kv.1 == k) then
    m.map (fun kv => if kv.1 == k then (k, v) else kv)
  else
    m ++ [(k, v)]

/-- Go map indexing `m[k]` with a presence flag. -/
def mapLookup (m : List (String × Option PVC)) (k : String) :
    Option (Option PVC) :=
  (m.find? (fun kv => kv.1 == k)).map (fun kv => kv.2)

/-- The loop of `VirtVolumesToPVCMap`, carrying the map built so far.  The
Go multi-value result `(map, err)` is the pair; the `nil` map returned on
failure is `none`. -/
def virtVolumesLoop (pvcStore : Store) (ns : String) :
    List Volume → List (String × Option PVC) →
      Option (List (String × Option PVC)) × Option String
  | [], acc => (some acc, none)
  | volume :: rest, acc =>
    let claimName := PVCNameFromVirtVolume volume
    if claimName == "" then
      (none, some ("volume " ++ volume.name ++ " is not a PVC or Datavolume"))
    else
      match IsPVCBlockFromStore pvcStore ns claimName with
      | (pvc, exists_, _, err) =>
        match err with
        | some e => (none, some ("failed to get PVC: " ++ e))
        | none =>
          if !exists_ then
            (none, some ("claim " ++ claimName ++ " not found"))
          else
            virtVolumesLoop pvcStore ns rest (mapInsert acc volume.name pvc)

/-- Function `VirtVolumesToPVCMap(volumes, pvcStore, namespace)`. -/
def VirtVolumesToPVCMap (volumes : List Volume) (pvcStore : Store)
    (ns : String) : Option (List (String × Option PVC)) × Option String :=
  virtVolumesLoop pvcStore ns volumes []

/-- Function `IsStaticallyProvisioned`: `pvc.Spec.StorageClassName != nil &&
*pvc.Spec.StorageClassName == ""`. -/
def IsStaticallyProvisioned (pvc : PVC) : Bool :=
  match pvc.spec.storageClassName with
  | some name => name == ""
  | none => false

/-- Function `IsDynamicallyProvisioned`: `pvc.Spec.StorageClassName == nil ||
*pvc.Spec.StorageClassName != ""`. -/
def IsDynamicallyProvisioned (pvc : PVC) : Bool :=
  match pvc.spec.storageClassName with
  | none => true
  | some name => name != ""

/-- Go map indexing on annotations with the zero-value default `""`. -/
def annLookup (annotations : List (String × String)) (key : String) : String :=
  match annotations.find? (fun kv => kv.1 == key) with
  | some kv => kv.2
  | none => ""

/-- The default-class test of `getDefaultStorageClass`:
`sc.Annotations["storageclass.kubernetes.io/is-default-class"] == "true"`. -/
def isDefaultClass (sc : StorageClass) : Bool :=
  annLookup sc.annotations defaultClassAnnKey == "true"

/-- The loop of `getDefaultStorageClass` over the listed cache objects:
downcast each (failing on a foreign type), return the first class annotated
as cluster default, `(nil, nil)` when none is. -/
def getDefaultLoop : List StoreObj → Option StorageClass × Option String
  | [] => (none, none)
  | obj :: rest =>
    match obj with
    | StoreObj.storageClass sc =>
      if isDefaultClass sc then (some sc, none) else getDefaultLoop rest
    | o =>
      (none, some ("failed converting object to a StorageClass: object is of type "
        ++ typeNameOf (some o)))

/-- Function `getDefaultStorageClass(storageClassStore)`. -/
def getDefaultStorageClass (storageClassStore : Store) :
    Option StorageClass × Option String :=
  getDefaultLoop storageClassStore.list

/-- Function `GetStorageClass(pvc, storageClassStore)`: `(nil, nil)` for a statically
provisioned claim, default-class resolution when the storage class name is
absent, otherwise a keyed lookup with downcast. -/
def GetStorageClass (pvc : PVC) (storageClassStore : Store) :
    Option StorageClass × Option String :=
  if IsStaticallyProvisioned pvc then
    (none, none)
  else
    match pvc.spec.storageClassName with
    | none => getDefaultStorageClass storageClassStore
    | some scName =>
      let r := storageClassStore.getByKey scName
      match r.err with
      | some e => (none, some e)
      | none =>
        if !r.exists_ then
          (none, some ("StorageClass " ++ scName ++ " does not exists"))
        else
          match r.obj with
          | some (StoreObj.storageClass sc) => (some sc, none)
          | o =>
            (none, some ("failed converting " ++ scName
              ++ " to a StorageClass: object is of type " ++ typeNameOf o))

/-- Function `IsWaitForFirstConsumer(pvc, storageClassStore)`, returning the
Go pair `(bool, err)`. -/
def IsWaitForFirstConsumer (pvc : PVC) (storageClassStore : Store) :
    Bool × Option String :=
  match GetStorageClass pvc storageClassStore with
  | (_, some e) => (false, some e)
  | (none, none) => (false, none)
  | (some sc, none) =>
    ((match sc.volumeBindingMode with
      | some m => m == VolumeBindingWaitForFirstConsumer
      | none => false), none)

/-- The first failing check of the `VirtVolumesToPVCMap` loop body for one
volume — the MissingReference message, the wrapped cache error, or the
NotFound message — and `none` when the volume maps successfully.  Mirrors the
loop body of `virtVolumesLoop` with the successful continuation replaced by
`none`. -/
def volumeFailure (pvcStore : Store) (ns : String) (volume : Volume) :
    Option String :=
  let claimName := PVCNameFromVirtVolume volume
  if claimName == "" then
    some ("volume " ++ volume.name ++ " is not a PVC or Datavolume")
  else
    match IsPVCBlockFromStore pvcStore ns claimName with
    | (_, exists_, _, err) =>
      match err with
      | some e => some ("failed to get PVC: " ++ e)
      | none =>
        if !exists_ then some ("claim " ++ claimName ++ " not found")
        else none

/-- The claim object the `VirtVolumesToPVCMap` loop stores for one volume:
the first component of the store lookup for its resolved claim name. -/
def volumePVC (pvcStore : Store) (ns : String) (volume : Volume) : Option PVC :=
  (IsPVCBlockFromStore pvcStore ns (PVCNameFromVirtVolume volume)).1

/-- A statically provisioned sample claim. -/
def staticPVC : PVC := ⟨"p", [], ⟨none, some "", []⟩⟩

/-- A store holding nothing. -/
def emptyStore : Store := ⟨fun _ => ⟨none, false, none⟩, []⟩

/-- A sample storage class annotated as cluster default. -/
def sampleDefaultSC : StorageClass :=
  ⟨"std", [("storageclass.kubernetes.io/is-default-class", "true")],
    some "WaitForFirstConsumer"⟩

/-- A store whose listing holds exactly `sampleDefaultSC`. -/
def oneClassStore : Store :=
  ⟨fun k =>
    if k == "std" then ⟨some (StoreObj.storageClass sampleDefaultSC), true, none⟩
    else ⟨none, false, none⟩,
    [StoreObj.storageClass sampleDefaultSC]⟩

/-- A store holding a foreign object under every key. -/
def mismatchStore : Store :=
  ⟨fun _ => ⟨some (StoreObj.other "*v1.Pod"), true, none⟩, []⟩

/-! ## Theorems -/

/-- Claim C6: `IsStaticallyProvisioned` is true exactly when the claim's
storage-class-name field is present (non-nil) and equal to the empty string,
and false when the field is absent or has any non-empty value. -/
theorem isStaticallyProvisioned_iff (pvc : PVC) :
    IsStaticallyProvisioned pvc = true ↔ pvc.spec.storageClassName = some "" := by
  unfold IsStaticallyProvisioned
  cases pvc.spec.storageClassName with
  | none => simp
  | some s => simp

/-- Claim C1 is refuted: there is no claim on which `IsDynamicallyProvisioned`
differs from the negation of `IsStaticallyProvisioned` — the two predicates
are mutual negations over all claims. -/
theorem dynamicNotNegationOfStatic_refuted :
    (∃ pvc : PVC, IsDynamicallyProvisioned pvc ≠ !IsStaticallyProvisioned pvc) ↔
      False := by
  simp only [iff_false]
  rintro ⟨pvc, h⟩
  apply h
  unfold IsDynamicallyProvisioned IsStaticallyProvisioned
  cases pvc.spec.storageClassName <;> rfl

/-- Claim C1 (amended): for every claim, `IsDynamicallyProvisioned` equals the
logical negation of `IsStaticallyProvisioned`; in particular a claim whose
storage-class-name is present-and-empty is static and not dynamic, and one
whose field is absent is dynamic and not static. -/
theorem isDynamicallyProvisioned_eq_not_static (pvc : PVC) :
    IsDynamicallyProvisioned pvc = !IsStaticallyProvisioned pvc := by
  unfold IsDynamicallyProvisioned IsStaticallyProvisioned
  cases pvc.spec.storageClassName <;> rfl

/-- Claim C10: when both the DataVolume reference and the Claim reference are
set, `PVCNameFromVirtVolume` returns the DataVolume's name — the DataVolume
variant takes precedence. -/
theorem pvcNameFromVirtVolume_dataVolume_precedence (volume : Volume)
    (dvName claimName : String)
    (hdv : volume.dataVolume = some dvName)
    (hclaim : volume.persistentVolumeClaim = some claimName) :
    PVCNameFromVirtVolume volume = dvName := by
  unfold PVCNameFromVirtVolume
  rw [hdv]

/-- Witness for C10 at a concrete volume carrying both references. -/
theorem pvcNameFromVirtVolume_dataVolume_precedence_witness :
    PVCNameFromVirtVolume ⟨"v1", some "dv1", some "c1"⟩ = "dv1" :=
  pvcNameFromVirtVolume_dataVolume_precedence ⟨"v1", some "dv1", some "c1"⟩
    "dv1" "c1" rfl rfl

/-- Claim C7: on a statically provisioned claim (storage-class-name present
and empty), `GetStorageClass` returns `(nil, nil)` and the result is
independent of the class store's contents. -/
theorem getStorageClass_static (pvc : PVC) (store1 store2 : Store)
    (h : pvc.spec.storageClassName = some "") :
    GetStorageClass pvc store1 = (none, none) ∧
    GetStorageClass pvc store1 = GetStorageClass pvc store2 := by
  have hs : IsStaticallyProvisioned pvc = true := by
    unfold IsStaticallyProvisioned
    rw [h]
    simp
  constructor
  · unfold GetStorageClass
    rw [hs]
    rfl
  · unfold GetStorageClass
    rw [hs]
    rfl

/-- Witness for C7 at a concrete static claim and two different stores. -/
theorem getStorageClass_static_witness :
    GetStorageClass staticPVC emptyStore = (none, none) ∧
    GetStorageClass staticPVC emptyStore = GetStorageClass staticPVC oneClassStore :=
  getStorageClass_static staticPVC emptyStore oneClassStore rfl

/-- Claim C5: `IsWaitForFirstConsumer` propagates unchanged any error from
`GetStorageClass` (returning false with that error); a nil resolved class
yields `(false, nil)`; otherwise the boolean is true iff the class's
volume-binding-mode field is non-nil and equals WaitForFirstConsumer. -/
theorem isWaitForFirstConsumer_spec (pvc : PVC) (storageClassStore : Store) :
    (∀ e, (GetStorageClass pvc storageClassStore).2 = some e →
        IsWaitForFirstConsumer pvc storageClassStore = (false, some e)) ∧
    (GetStorageClass pvc storageClassStore = (none, none) →
        IsWaitForFirstConsumer pvc storageClassStore = (false, none)) ∧
    (∀ sc, GetStorageClass pvc storageClassStore = (some sc, none) →
        (IsWaitForFirstConsumer pvc storageClassStore).2 = none ∧
        ((IsWaitForFirstConsumer pvc storageClassStore).1 = true ↔
          sc.volumeBindingMode = some VolumeBindingWaitForFirstConsumer)) := by
  refine ⟨fun e he => ?_, fun hnil => ?_, fun sc hsc => ?_⟩
  · unfold IsWaitForFirstConsumer
    rcases hg : GetStorageClass pvc storageClassStore with ⟨scOpt, errOpt⟩
    rw [hg] at he
    simp only at he
    subst he
    cases scOpt <;> rfl
  · unfold IsWaitForFirstConsumer
    rw [hnil]
  · unfold IsWaitForFirstConsumer
    rw [hsc]
    refine ⟨rfl, ?_⟩
    cases hvb : sc.volumeBindingMode with
    | none => simp [hvb]
    | some m => simp [hvb, VolumeBindingWaitForFirstConsumer]

/-- Claim C3: `IsPVCBlockFromStore` returns `exists=false` with a nil error
when the composite key `"<namespace>/<name>"` is absent from the store, and
when a claim object is found it returns `isBlock=true` iff the claim's
volume-mode field is non-nil and equals the Block enumerator. -/
theorem isPVCBlockFromStore_spec (store : Store) (ns claimName : String) :
    (∀ o, store.getByKey (ns ++ "/" ++ claimName) = ⟨o, false, none⟩ →
        IsPVCBlockFromStore store ns claimName = (none, false, false, none)) ∧
    (∀ p, store.getByKey (ns ++ "/" ++ claimName) =
          ⟨some (StoreObj.pvc p), true, none⟩ →
        IsPVCBlockFromStore store ns claimName = (some p, true, isPVCBlock p, none) ∧
        (isPVCBlock p = true ↔ p.spec.volumeMode = some PersistentVolumeBlock)) := by
  constructor
  · intro o ho
    unfold IsPVCBlockFromStore
    rw [ho]
    rfl
  · intro p hp
    unfold IsPVCBlockFromStore
    rw [hp]
    refine ⟨rfl, ?_⟩
    unfold isPVCBlock
    cases hvm : p.spec.volumeMode with
    | none => simp [hvm]
    | some m => simp [hvm, PersistentVolumeBlock]

/-- Claim C9: when the store holds an object under the composite key but that
object is not a claim, `IsPVCBlockFromStore` reports `exists=false` together
with a non-nil error. -/
theorem isPVCBlockFromStore_typeMismatch (store : Store) (ns claimName : String)
    (o : Option StoreObj)
    (hget : store.getByKey (ns ++ "/" ++ claimName) = ⟨o, true, none⟩)
    (hnot : ∀ p, o ≠ some (StoreObj.pvc p)) :
    ∃ e, IsPVCBlockFromStore store ns claimName = (none, false, false, some e) := by
  refine ⟨"this is not a PVC! " ++ typeNameOf o, ?_⟩
  unfold IsPVCBlockFromStore
  rw [hget]
  cases o with
  | none => rfl
  | some obj =>
    cases obj with
    | pvc p => exact absurd rfl (hnot p)
    | storageClass sc => rfl
    | other t => rfl

/-- Witness for C9 at a concrete store holding a non-claim object. -/
theorem isPVCBlockFromStore_typeMismatch_witness :
    ∃ e, IsPVCBlockFromStore mismatchStore "ns" "c1" = (none, false, false, some e) :=
  isPVCBlockFromStore_typeMismatch mismatchStore "ns" "c1"
    (some (StoreObj.other "*v1.Pod")) rfl (fun p h => by simp at h)

/-- Lemma: `listContains pat s` decides contiguous-sublist containment. -/
theorem listContains_decides (pat : List Char) :
    ∀ s : List Char, listContains pat s = true ↔ pat <:+: s := by
  intro s
  induction s with
  | nil =>
    simp [listContains, List.isEmpty_iff, List.infix_nil]
  | cons c rest ih =>
    simp [listContains, Bool.or_eq_true, List.isPrefixOf_iff_prefix, ih,
       List.infix_cons_iff]

/-- Lemma: `strContains s pat` decides that `pat` occurs inside `s`. -/
theorem strContains_iff (s pat : String) :
    strContains s pat = true ↔ pat.toList <:+: s.toList :=
  listContains_decides pat.toList s.toList

/-- Claim C8: `IsPreallocated` is true iff some annotation key contains the
substring `/storage.preallocation` or `/storage.thick-provisioned` and its
value is exactly `"true"`; in particular true for key
`foo.example.com/storage.preallocation` with value `"true"`, false when the
value is `"false"` and false when no key has the suffix. -/
theorem isPreallocated_spec (annotations : List (String × String)) :
    (IsPreallocated annotations = true ↔
      ∃ kv ∈ annotations,
        ("/storage.preallocation".toList <:+: kv.1.toList ∨
          "/storage.thick-provisioned".toList <:+: kv.1.toList) ∧
        kv.2 = "true") ∧
    IsPreallocated [("foo.example.com/storage.preallocation", "true")] = true ∧
    IsPreallocated [("foo.example.com/storage.preallocation", "false")] = false ∧
    IsPreallocated [("foo.example.com/other", "true")] = false := by
  refine ⟨?_, by decide, by decide, by decide⟩
  simp only [IsPreallocated, List.any_eq_true, Bool.or_eq_true, Bool.and_eq_true,
    beq_iff_eq, strContains_iff]
  constructor
  · rintro ⟨kv, hm, h⟩
    exact ⟨kv, hm, by tauto⟩
  · rintro ⟨kv, hm, h⟩
    exact ⟨kv, hm, by tauto⟩

/-- When every listed object is a storage class and none is annotated as
cluster default, the default-class loop yields `(nil, nil)`. -/
theorem getDefaultLoop_eq_none : ∀ l : List StoreObj,
    (∀ o ∈ l, ∃ sc, o = StoreObj.storageClass sc) →
    (∀ sc, StoreObj.storageClass sc ∈ l → isDefaultClass sc = false) →
    getDefaultLoop l = (none, none) := by
  intro l
  induction l with
  | nil => intro _ _; rfl
  | cons o rest ih =>
    intro hall hnone
    obtain ⟨sc, rfl⟩ := hall o (List.mem_cons_self o rest)
    have hd : isDefaultClass sc = false := hnone sc (List.mem_cons_self _ _)
    simp only [getDefaultLoop, hd, Bool.false_eq_true, if_false]
    exact ih (fun o ho => hall o (List.mem_cons_of_mem _ ho))
      (fun sc2 h2 => hnone sc2 (List.mem_cons_of_mem _ h2))

/-- The default-class loop returns the first listed class annotated as
cluster default, when the earlier listed objects are all non-default
classes. -/
theorem getDefaultLoop_eq_first : ∀ (pre : List StoreObj) (sc : StorageClass)
    (post : List StoreObj),
    (∀ o ∈ pre, ∃ sc2, o = StoreObj.storageClass sc2) →
    (∀ sc2, StoreObj.storageClass sc2 ∈ pre → isDefaultClass sc2 = false) →
    isDefaultClass sc = true →
    getDefaultLoop (pre ++ StoreObj.storageClass sc :: post) = (some sc, none) := by
  intro pre
  induction pre with
  | nil =>
    intro sc post _ _ hdef
    simp [getDefaultLoop, hdef]
  | cons o rest ih =>
    intro sc post hall hnone hdef
    obtain ⟨sc2, rfl⟩ := hall o (List.mem_cons_self o rest)
    have hd : isDefaultClass sc2 = false := hnone sc2 (List.mem_cons_self _ _)
    simp only [List.cons_append, getDefaultLoop, hd, Bool.false_eq_true, if_false]
    exact ih sc post (fun o ho => hall o (List.mem_cons_of_mem _ ho))
      (fun s h2 => hnone s (List.mem_cons_of_mem _ h2)) hdef

/-- Claim C4: over a class store whose listed objects are all storage
classes, default-class resolution returns `(nil, nil)` — no class and no
error — when no listed class carries the default-class annotation with value
exactly `"true"`, and returns the first such class with no error when one
does. -/
theorem getDefaultStorageClass_spec (store : Store)
    (h : ∀ o ∈ store.list, ∃ sc, o = StoreObj.storageClass sc) :
    ((∀ sc, StoreObj.storageClass sc ∈ store.list → isDefaultClass sc = false) →
        getDefaultStorageClass store = (none, none)) ∧
    (∀ pre sc post, store.list = pre ++ StoreObj.storageClass sc :: post →
        isDefaultClass sc = true →
        (∀ sc2, StoreObj.storageClass sc2 ∈ pre → isDefaultClass sc2 = false) →
        getDefaultStorageClass store = (some sc, none)) := by
  constructor
  · intro hnone
    exact getDefaultLoop_eq_none store.list h hnone
  · intro pre sc post hsplit hdef hpre
    unfold getDefaultStorageClass
    rw [hsplit]
    refine getDefaultLoop_eq_first pre sc post (fun o ho => ?_) hpre hdef
    exact h o (by rw [hsplit]; exact List.mem_append_left _ ho)

/-- Witness for C4 at a store listing exactly one default-annotated class. -/
theorem getDefaultStorageClass_spec_witness :
    getDefaultStorageClass oneClassStore = (some sampleDefaultSC, none) :=
  (getDefaultStorageClass_spec oneClassStore
      (fun o ho => ⟨sampleDefaultSC, by simpa [oneClassStore] using ho⟩)).2
    [] sampleDefaultSC [] rfl (by decide)
    (fun sc2 h2 => absurd h2 (List.not_mem_nil _))

/-- One step of the volume-mapping loop: either the volume's first failing
check aborts the loop, or its claim is inserted and the loop continues. -/
theorem virtVolumesLoop_cons (pvcStore : Store) (ns : String) (volume : Volume)
    (rest : List Volume) (acc : List (String × Option PVC)) :
    virtVolumesLoop pvcStore ns (volume :: rest) acc =
      match volumeFailure pvcStore ns volume with
      | some msg => (none, some msg)
      | none =>
        virtVolumesLoop pvcStore ns rest
          (mapInsert acc volume.name (volumePVC pvcStore ns volume)) := by
  simp only [virtVolumesLoop, volumeFailure, volumePVC]
  cases hc : PVCNameFromVirtVolume volume == "" with
  | true => simp [hc]
  | false =>
    rcases hq : IsPVCBlockFromStore pvcStore ns (PVCNameFromVirtVolume volume)
      with ⟨p, ex, bl, err⟩
    simp only [hc, hq, Bool.false_eq_true, if_false]
    cases err with
    | some e => rfl
    | none =>
      cases ex with
      | false => rfl
      | true => rfl

/-- A failing volume aborts the loop with its message. -/
theorem virtVolumesLoop_cons_fail {pvcStore : Store} {ns : String}
    {volume : Volume} {rest : List Volume} {acc : List (String × Option PVC)}
    {msg : String} (hf : volumeFailure pvcStore ns volume = some msg) :
    virtVolumesLoop pvcStore ns (volume :: rest) acc = (none, some msg) := by
  rw [virtVolumesLoop_cons, hf]

/-- A successful volume inserts its claim and the loop continues. -/
theorem virtVolumesLoop_cons_ok {pvcStore : Store} {ns : String}
    {volume : Volume} {rest : List Volume} {acc : List (String × Option PVC)}
    (hf : volumeFailure pvcStore ns volume = none) :
    virtVolumesLoop pvcStore ns (volume :: rest) acc =
      virtVolumesLoop pvcStore ns rest
        (mapInsert acc volume.name (volumePVC pvcStore ns volume)) := by
  rw [virtVolumesLoop_cons, hf]

/-- Lookup on a cons: the head binding when its key matches, the tail
lookup otherwise. -/
theorem mapLookup_cons (kv : String × Option PVC)
    (m : List (String × Option PVC)) (k : String) :
    mapLookup (kv :: m) k =
      if kv.1 == k then some kv.2 else mapLookup m k := by
  unfold mapLookup
  simp only [List.find?]
  cases h : kv.1 == k <;> simp

/-- Looking a different key up after replacing the bindings of `k` is
looking it up in the original list. -/
theorem mapLookup_map_replace (k : String) (v : Option PVC) (k2 : String)
    (hne : k2 ≠ k) :
    ∀ m : List (String × Option PVC),
      mapLookup (m.map (fun kv => if kv.1 == k then (k, v) else kv)) k2 =
        mapLookup m k2 := by
  intro m
  have hk : (k == k2) = false := beq_eq_false_iff_ne.mpr (Ne.symm hne)
  induction m with
  | nil => rfl
  | cons kv m ih =>
    cases h1 : kv.1 == k with
    | true =>
      have h2 : (kv.1 == k2) = false := by
        rw [beq_iff_eq.mp h1]
        exact hk
      rw [List.map_cons, if_pos h1, mapLookup_cons, mapLookup_cons,
        if_neg (by simp [hk]), if_neg (by simp [h2])]
      exact ih
    | false =>
      rw [List.map_cons, if_neg (by simp [h1]), mapLookup_cons,
        mapLookup_cons, ih]

/-- After replacing the bindings of a key that is present, looking that key
up yields the new value. -/
theorem mapLookup_map_replace_self (k : String) (v : Option PVC) :
    ∀ m : List (String × Option PVC),
      m.any (fun kv => kv.1 == k) = true →
      mapLookup (m.map (fun kv => if kv.1 == k then (k, v) else kv)) k =
        some v := by
  intro m
  induction m with
  | nil => intro h; cases h
  | cons kv m ih =>
    intro hany
    cases h1 : kv.1 == k with
    | true =>
      rw [List.map_cons, if_pos h1, mapLookup_cons]
      simp
    | false =>
      have hrest : m.any (fun kv => kv.1 == k) = true := by
        simpa [List.any_cons, h1] using hany
      rw [List.map_cons, if_neg (by simp [h1]), mapLookup_cons,
        if_neg (by simp [h1])]
      exact ih hrest

/-- An absent key is found nowhere. -/
theorem mapLookup_eq_none_of_not_any (k : String) :
    ∀ m : List (String × Option PVC),
      m.any (fun kv => kv.1 == k) = false → mapLookup m k = none := by
  intro m
  induction m with
  | nil => intro _; rfl
  | cons kv m ih =>
    intro hany
    simp only [List.any_cons, Bool.or_eq_false_iff] at hany
    simp only [mapLookup_cons, hany.1, Bool.false_eq_true, if_false]
    exact ih hany.2

/-- Lookup after appending one binding at the end: the earlier bindings take
precedence. -/
theorem mapLookup_append_single (k : String) (v : Option PVC) :
    ∀ (m : List (String × Option PVC)) (k2 : String),
      mapLookup (m ++ [(k, v)]) k2 =
        (mapLookup m k2).or (if k == k2 then some v else none) := by
  intro m
  induction m with
  | nil =>
    intro k2
    simp only [List.nil_append, mapLookup_cons]
    cases h : k == k2 <;> simp [mapLookup, h]
  | cons kv m ih =>
    intro k2
    simp only [List.cons_append, mapLookup_cons]
    cases h : kv.1 == k2 with
    | true => simp [Option.or]
    | false => simp [ih]

/-- Go map assignment observed through lookup: the inserted key maps to the
new value, all other keys are untouched. -/
theorem mapLookup_mapInsert (m : List (String × Option PVC)) (k : String)
    (v : Option PVC) (k2 : String) :
    mapLookup (mapInsert m k v) k2 =
      if k2 = k then some v else mapLookup m k2 := by
  unfold mapInsert
  cases hany : m.any (fun kv => kv.1 == k) with
  | true =>
    rw [if_pos rfl]
    by_cases h2 : k2 = k
    · subst h2
      rw [mapLookup_map_replace_self k2 v m hany]
      simp
    · rw [mapLookup_map_replace k v k2 h2 m]
      simp [h2]
  | false =>
    simp only [Bool.false_eq_true, if_false]
    rw [mapLookup_append_single]
    by_cases h2 : k2 = k
    · subst h2
      rw [mapLookup_eq_none_of_not_any k2 m hany]
      simp
    · have : (k == k2) = false := beq_eq_false_iff_ne.mpr (Ne.symm h2)
      simp [h2, this, Option.or_none]

/-- Looking up the map the loop folds together: the binding for a key comes
from the last volume with that name, and otherwise from the accumulator. -/
theorem mapLookup_foldl (pvcStore : Store) (ns : String) :
    ∀ (volumes : List Volume) (acc : List (String × Option PVC)) (k : String),
      mapLookup
        (volumes.foldl
          (fun a v => mapInsert a v.name (volumePVC pvcStore ns v)) acc) k =
      ((volumes.reverse.find? (fun v => v.name == k)).map
          (volumePVC pvcStore ns)).or (mapLookup acc k) := by
  intro volumes
  induction volumes with
  | nil => intro acc k; simp
  | cons w rest ih =>
    intro acc k
    simp only [List.foldl_cons, List.reverse_cons]
    rw [ih, List.find?_append]
    rcases hfind : rest.reverse.find? (fun v => v.name == k) with _ | v
    · rw [hfind]
      simp only [Option.none_or, Option.map_none']
      rw [mapLookup_mapInsert]
      by_cases h2 : k = w.name
      · have hw : (w.name == k) = true := by simp [h2]
        simp only [List.find?, hw, Option.map_some', if_pos h2]
        rfl
      · have hw : (w.name == k) = false := beq_eq_false_iff_ne.mpr (Ne.symm h2)
        simp only [List.find?, hw, Option.map_none', Option.none_or,
          if_neg h2]
    · rw [hfind]
      rfl

/-- The loop never returns a mapping together with an error: the result is
either a mapping with no error or no mapping with an error. -/
theorem virtVolumesLoop_shape (pvcStore : Store) (ns : String) :
    ∀ (volumes : List Volume) (acc : List (String × Option PVC)),
      (∃ m, virtVolumesLoop pvcStore ns volumes acc = (some m, none)) ∨
      (∃ e, virtVolumesLoop pvcStore ns volumes acc = (none, some e)) := by
  intro volumes
  induction volumes with
  | nil => intro acc; exact Or.inl ⟨acc, rfl⟩
  | cons w rest ih =>
    intro acc
    rcases hf : volumeFailure pvcStore ns w with _ | msg
    · rw [virtVolumesLoop_cons_ok hf]
      exact ih _
    · rw [virtVolumesLoop_cons_fail hf]
      exact Or.inr ⟨msg, rfl⟩

/-- The loop errors exactly when some volume fails while all volumes before
it succeed, and the error is that first failing volume's message. -/
theorem virtVolumesLoop_error_iff (pvcStore : Store) (ns : String) :
    ∀ (volumes : List Volume) (acc : List (String × Option PVC)) (e : String),
      virtVolumesLoop pvcStore ns volumes acc = (none, some e) ↔
        ∃ pre v post, volumes = pre ++ v :: post ∧
          (∀ u ∈ pre, volumeFailure pvcStore ns u = none) ∧
          volumeFailure pvcStore ns v = some e := by
  intro volumes
  induction volumes with
  | nil =>
    intro acc e
    constructor
    · intro h
      simp only [virtVolumesLoop] at h
      cases h
    · rintro ⟨pre, v, post, hsplit, -, -⟩
      rcases pre with _ | ⟨a, pre⟩ <;> simp at hsplit
  | cons w rest ih =>
    intro acc e
    rcases hf : volumeFailure pvcStore ns w with _ | msg
    · rw [virtVolumesLoop_cons_ok hf, ih]
      constructor
      · rintro ⟨pre, v, post, hsplit, hclean, hv⟩
        refine ⟨w :: pre, v, post, by rw [hsplit]; rfl, fun u hu => ?_, hv⟩
        rcases List.mem_cons.mp hu with rfl | h2
        · exact hf
        · exact hclean u h2
      · rintro ⟨pre, v, post, hsplit, hclean, hv⟩
        rcases pre with _ | ⟨a, pre⟩
        · simp only [List.nil_append, List.cons.injEq] at hsplit
          obtain ⟨rfl, rfl⟩ := hsplit
          rw [hf] at hv
          cases hv
        · simp only [List.cons_append, List.cons.injEq] at hsplit
          obtain ⟨rfl, rfl⟩ := hsplit
          exact ⟨pre, v, post, rfl,
            fun u hu => hclean u (List.mem_cons_of_mem _ hu), hv⟩
    · rw [virtVolumesLoop_cons_fail hf]
      constructor
      · intro h
        simp only [Prod.mk.injEq, Option.some.injEq] at h
        refine ⟨[], w, rest, rfl, by simp, ?_⟩
        rw [hf, h.2]
      · rintro ⟨pre, v, post, hsplit, hclean, hv⟩
        rcases pre with _ | ⟨a, pre⟩
        · simp only [List.nil_append, List.cons.injEq] at hsplit
          obtain ⟨rfl, rfl⟩ := hsplit
          rw [hf] at hv
          simp only [Option.some.injEq] at hv
          rw [hv]
        · simp only [List.cons_append, List.cons.injEq] at hsplit
          obtain ⟨rfl, rfl⟩ := hsplit
          have := hclean w (List.mem_cons_self _ _)
          rw [hf] at this
          cases this

/-- When the loop succeeds, every processed volume was failure-free and the
resulting map is the fold of the insertions over the accumulator. -/
theorem virtVolumesLoop_ok (pvcStore : Store) (ns : String) :
    ∀ (volumes : List Volume) (acc m : List (String × Option PVC)),
      virtVolumesLoop pvcStore ns volumes acc = (some m, none) →
        (∀ v ∈ volumes, volumeFailure pvcStore ns v = none) ∧
        m = volumes.foldl
          (fun a v => mapInsert a v.name (volumePVC pvcStore ns v)) acc := by
  intro volumes
  induction volumes with
  | nil =>
    intro acc m h
    simp only [virtVolumesLoop, Prod.mk.injEq, Option.some.injEq] at h
    exact ⟨by simp, h.1.symm⟩
  | cons w rest ih =>
    intro acc m h
    rcases hf : volumeFailure pvcStore ns w with _ | msg
    · rw [virtVolumesLoop_cons_ok hf] at h
      obtain ⟨hclean, hm⟩ := ih _ m h
      refine ⟨fun v hv => ?_, by simpa using hm⟩
      rcases List.mem_cons.mp hv with rfl | h2
      · exact hf
      · exact hclean v h2
    · rw [virtVolumesLoop_cons_fail hf] at h
      cases h

/-- Claim C2: `VirtVolumesToPVCMap` processes volumes in input order and
stops at the first failing volume, whose failure (MissingReference, wrapped
cache error, or NotFound, as `volumeFailure` spells out) becomes the returned
error; on any failure the returned mapping is nil; on success the mapping is
keyed by volume name and maps each name to the claim object found in the
store for the last volume bearing it. -/
theorem virtVolumesToPVCMap_spec (volumes : List Volume) (pvcStore : Store)
    (ns : String) :
    (∀ e, VirtVolumesToPVCMap volumes pvcStore ns = (none, some e) ↔
        ∃ pre v post, volumes = pre ++ v :: post ∧
          (∀ u ∈ pre, volumeFailure pvcStore ns u = none) ∧
          volumeFailure pvcStore ns v = some e) ∧
    (∀ m, VirtVolumesToPVCMap volumes pvcStore ns = (some m, none) →
        (∀ v ∈ volumes, volumeFailure pvcStore ns v = none) ∧
        ∀ k, mapLookup m k =
          (volumes.reverse.find? (fun v => v.name == k)).map
            (volumePVC pvcStore ns)) ∧
    (∀ e, (VirtVolumesToPVCMap volumes pvcStore ns).2 = some e →
        (VirtVolumesToPVCMap volumes pvcStore ns).1 = none) := by
  refine ⟨fun e => ?_, fun m hm => ?_, fun e he => ?_⟩
  · exact virtVolumesLoop_error_iff pvcStore ns volumes [] e
  · obtain ⟨hclean, hfold⟩ := virtVolumesLoop_ok pvcStore ns volumes [] m hm
    refine ⟨hclean, fun k => ?_⟩
    rw [hfold, mapLookup_foldl]
    simp [mapLookup, Option.or_none]
  · rcases virtVolumesLoop_shape pvcStore ns volumes [] with ⟨m, hok⟩ | ⟨e2, herr⟩
    · unfold VirtVolumesToPVCMap at he
      rw [hok] at he
      cases he
    · unfold VirtVolumesToPVCMap
      rw [herr]

/-- Concrete check: two volumes whose claims are both cached map to the
mapping keyed by volume name, as the specification's example states. -/
theorem virtVolumesToPVCMap_example_ok :
    VirtVolumesToPVCMap [⟨"v1", none, some "c1"⟩, ⟨"v2", none, some "c2"⟩]
      ⟨fun k =>
        if k == "ns/c1" then
          ⟨some (StoreObj.pvc ⟨"c1", [], ⟨none, none, []⟩⟩), true, none⟩
        else if k == "ns/c2" then
          ⟨some (StoreObj.pvc ⟨"c2", [], ⟨some "Block", none, []⟩⟩), true, none⟩
        else ⟨none, false, none⟩, []⟩ "ns" =
    (some [("v1", some ⟨"c1", [], ⟨none, none, []⟩⟩),
      ("v2", some ⟨"c2", [], ⟨some "Block", none, []⟩⟩)], none) := by
  decide

/-- Concrete check: with the second claim absent from the cache the call
fails with NotFound naming `c2` and returns no partial mapping. -/
theorem virtVolumesToPVCMap_example_missing :
    VirtVolumesToPVCMap [⟨"v1", none, some "c1"⟩, ⟨"v2", none, some "c2"⟩]
      ⟨fun k =>
        if k == "ns/c1" then
          ⟨some (StoreObj.pvc ⟨"c1", [], ⟨none, none, []⟩⟩), true, none⟩
        else ⟨none, false, none⟩, []⟩ "ns" =
    (none, some "claim c2 not found") := by
  decide

end KubeVirtPVC
